import Mathlib

/-!
Verification of the `3pub` epub reader (`3pub.py`): the markup-to-text
converter `textify`, the package indexer `table_of_contents`, the path check
`check_epub`, the dump mode `dump_epub`, and the `curses_epub` reader state
machine (table-of-contents view and chapter view).

Machine integers are modelled as `Int` (Python integers are unbounded);
terminal rendering, the `i`/`e` subprocess actions and quitting are not part
of the transition model; the BeautifulSoup / zipfile collaborators appear as
explicit function parameters.
-/

namespace ThreePub

/-! ### Markup-to-text converter: `textify` (3pub.py lines 92-133)

`textify` subclasses Python's `html.parser.HTMLParser`.  The subclass calls
`super().__init__()` with no arguments, so `convert_charrefs` keeps its
default value `True`: the tokenizer decodes character and entity references
inside character data (via `html.unescape`) before `handle_data` ever sees
them, and the `handle_entityref` / `handle_charref` events are never
delivered.  The tokenizer below models that collaborator for the fragment
subset exercised here: `<...>` runs (with no quoted `>` inside) become
start/end-tag events and runs of character data become `data` events with
references decoded. -/

/-- One tokenizer event, as delivered by `html.parser.HTMLParser` to the
handler methods of `textify.Parser`. -/
inductive Event where
  | data (s : String)
  | starttag (raw : String)
  | endtag (raw : String)
  | entityref (name : String)
  | charref (name : String)
deriving DecidableEq

/-- The named character references this development needs: a subset of the
html5 entity table that Python's `html.unescape` consults (the
semicolon-terminated forms). -/
def namedEntities : List (String × Char) :=
  [("amp", '&'), ("lt", '<'), ("gt", '>'), ("quot", '"'), ("copy", '©')]

/-- Decimal value of a digit run. -/
def digitsVal (ds : List Char) : Nat :=
  ds.foldl (fun n c => 10 * n + (c.toNat - '0'.toNat)) 0

/-- Parse one character reference immediately after a `&`: either `#`
followed by decimal digits and an optional `;`, or a semicolon-terminated
name from the entity table.  Returns the decoded character and the
unconsumed rest; `none` leaves the `&` as literal text, which is what
`html.unescape` does with references it cannot resolve. -/
def parseRef (rest : List Char) : Option (Char × List Char) :=
  match rest with
  | '#' :: rest2 =>
    let digits := rest2.takeWhile Char.isDigit
    if digits.isEmpty then none
    else
      let rest3 := rest2.drop digits.length
      let rest4 := if rest3.head? = some ';' then rest3.tail else rest3
      some (Char.ofNat (digitsVal digits), rest4)
  | _ =>
    let name := rest.takeWhile (fun c => c.isAlpha || c.isDigit)
    match rest.drop name.length with
    | ';' :: rest4 =>
      match (namedEntities.filter (fun p => p.1 = String.mk name)).head? with
      | some p => some (p.2, rest4)
      | none => none
    | _ => none

/-- Reference decoding over character data (`html.unescape` on the subset
above).  A fuel argument makes the recursion structural; `cs.length` fuel is
always enough because every step consumes at least one character. -/
def decodeEntitiesAux : Nat → List Char → List Char
  | 0, cs => cs
  | _ + 1, [] => []
  | fuel + 1, c :: rest =>
    if c = '&' then
      match parseRef rest with
      | some pr => pr.1 :: decodeEntitiesAux fuel pr.2
      | none => '&' :: decodeEntitiesAux fuel rest
    else c :: decodeEntitiesAux fuel rest

def decodeEntities (cs : List Char) : List Char :=
  decodeEntitiesAux cs.length cs

/-- Classify a finished tag buffer: a leading `/` marks an end tag.  Tag
names and attributes are carried raw because `handle_starttag` and
`handle_endtag` in the source discard all of their arguments. -/
def mkTag (buf : List Char) : Event :=
  match buf with
  | '/' :: rest => .endtag (String.mk rest)
  | _ => .starttag (String.mk buf)

/-- Flush a character-data buffer as a `data` event, with references decoded
(`convert_charrefs = True`). -/
def emitText (buf : List Char) : List Event :=
  if buf.isEmpty then [] else [.data (String.mk (decodeEntities buf))]

/-- Tokenizer state: whether we are inside a `<...>` run, the current
buffer, and the events produced so far. -/
structure TokState where
  inTag : Bool
  buf : List Char
  events : List Event

def tokStep (st : TokState) (c : Char) : TokState :=
  if st.inTag then
    if c = '>' then { inTag := false, buf := [], events := st.events ++ [mkTag st.buf] }
    else { st with buf := st.buf ++ [c] }
  else
    if c = '<' then { inTag := true, buf := [], events := st.events ++ emitText st.buf }
    else { st with buf := st.buf ++ [c] }

/-- The event stream `HTMLParser.feed`/`close` delivers for a fragment (an
unterminated trailing tag is dropped, as `close` discards it). -/
def tokenize (s : String) : List Event :=
  let fin := s.data.foldl tokStep { inTag := false, buf := [], events := [] }
  fin.events ++ emitText (if fin.inTag then [] else fin.buf)

/-- The `Parser`/`Writer` pair of `textify` (3pub.py lines 97-125) as a fold
over tokenizer events: `handle_starttag` and `handle_endtag` pass, so tags
are discarded; `handle_data` hands the data to `Writer.add_data`, which
writes it to the output buffer and never consults `self.maxcol`; the
`handle_entityref` / `handle_charref` overrides re-encode references as
`&name;` / `&#code;` (dead code under `convert_charrefs = True`, kept here
because it is in the source). -/
def consumeEvent (acc : String) : Event → String
  | .data s => acc ++ s
  | .entityref name => acc ++ "&" ++ name ++ ";"
  | .charref name => acc ++ "&#" ++ name ++ ";"
  | .starttag _ => acc
  | .endtag _ => acc

/-- `textify(html_snippet, img_size, maxcol)` (3pub.py lines 92-133).
`img_size` and `maxcol` are accepted and stored exactly as in the source,
where they are never used: the output is the concatenation of the data the
tokenizer delivers. -/
def textify (html_snippet : String) (img_size : Int × Int) (maxcol : Option Nat) : String :=
  (tokenize html_snippet).foldl consumeEvent ""

/-- Substring test used to state the entity/marker claims. -/
def occursIn (pat s : String) : Bool :=
  (List.range (s.data.length + 1)).any (fun i => pat.data.isPrefixOf (s.data.drop i))

/-- Python `str.strip()`: drop whitespace from both ends. -/
def pyStrip (s : String) : String :=
  String.mk (((s.data.dropWhile Char.isWhitespace).reverse.dropWhile
    Char.isWhitespace).reverse)

/-- Python `str.lower()` on the ASCII names used here. -/
def pyLower (s : String) : String :=
  String.mk (s.data.map Char.toLower)

/-- Python `str.split(sep)` for a one-character separator (empty pieces
kept; `''` yields `['']`). -/
def splitChar (sep : Char) (s : String) : List String :=
  (s.data.foldr
    (fun c acc =>
      match acc with
      | [] => [[c]]
      | cur :: rest => if c = sep then [] :: cur :: rest else (c :: cur) :: rest)
    [[]]).map String.mk

/-- Python `src.split('#')[0]`: everything before the first `#`. -/
def fragStrip (s : String) : String :=
  String.mk (s.data.takeWhile (fun c => c ≠ '#'))

/-! ### Reader state machine: `curses_epub` (3pub.py lines 222-371)

The machine is modelled at a fixed terminal size `maxy × maxx` (one
`getmaxyx` reading; terminal resize is real-time behaviour outside the
model).  `body src` stands for the collaborator
`str(BeautifulSoup(fl.read(src), 'html.parser').find('body'))`.  The `i`
(show images) and `e` (edit) actions and quitting do not change the
navigation state and are outside the transition model.  List indexing in the
source can raise `IndexError`; the total `getIdx` / `setIdx` helpers below
behave identically on the in-range indices that reachable states use. -/

/-- A table-of-contents entry `(title, contentRef)`. -/
abbrev TocEntry := String × Option String

/-- The keys the navigation dispatch reacts to: arrow down/up, PgDn
(`KEY_NPAGE`), PgUp (`KEY_PPAGE`) and the Tab/Left/Right view switch. -/
inductive Key where
  | down
  | up
  | npage
  | ppage
  | tab
deriving DecidableEq

/-- The active view: the TOC, or a chapter with its materialized lines.  For
a header entry the source binds `chap = ''`, a zero-length line sequence,
modelled as `[]`. -/
inductive Mode where
  | toc
  | chapter (chap : List String)
deriving DecidableEq

structure EpubState where
  chaps : List TocEntry
  chapsPos : List Int
  start : Int
  cursorRow : Int
  mode : Mode
deriving DecidableEq

def getIdx {α : Type} (l : List α) (i : Int) (d : α) : α :=
  if 0 ≤ i then l.getD i.toNat d else d

def setIdx (l : List Int) (i : Int) (v : Int) : List Int :=
  if 0 ≤ i then l.set i.toNat v else l

/-- The clamp at the top of the TOC loop (3pub.py lines 239-240):
`if cursor_row >= maxy: cursor_row = maxy - 1`. -/
def tocClamp (maxy cr : Int) : Int :=
  if maxy ≤ cr then maxy - 1 else cr

/-- TOC-mode navigation on `(start, cursor_row)` (3pub.py lines 249-275).
`len_chaps` is the value `list_chaps` (lines 185-197) returns: the last
index `enumerate` produced over the slice `chaps[start:start+maxy]`, that
is, the number of drawn rows minus one, `min maxy (L - start) - 1`. -/
def stepToc (maxy L : Int) (st : Int × Int) (k : Key) : Int × Int :=
  let start := st.1
  let cursorRow := tocClamp maxy st.2
  let len_chaps := min maxy (L - start) - 1
  match k with
  | .down =>
    if start < L - maxy then (start + 1, cursorRow)
    else if cursorRow < maxy - 1 ∧ cursorRow < len_chaps then (start, cursorRow + 1)
    else (start, cursorRow)
  | .up =>
    if 0 < start then (start - 1, cursorRow)
    else if 0 < cursorRow then (start, cursorRow - 1)
    else (start, cursorRow)
  | .npage =>
    if start + maxy - 1 < L then
      (if len_chaps < maxy then L - maxy else start + maxy - 1, cursorRow)
    else (start, cursorRow)
  | .ppage =>
    if 0 < start then
      (if start - (maxy - 1) < 0 then 0 else start - (maxy - 1), cursorRow)
    else (start, cursorRow)
  | .tab => (start, cursorRow)

/-- Chapter-mode scrolling of the offset `chaps_pos[start + cursor_row]`
(3pub.py lines 319-339): the arrow keys move by `maxy - 1` (the down guard
is `pos + maxy - 1 < len(chap)`, the up branch floors at 0), PgDn moves by 1
under the same `pos + maxy - 1 < len(chap)` guard, PgUp moves by 1 while
`pos > 0`. -/
def stepChap (maxy L pos : Int) (k : Key) : Int :=
  match k with
  | .down => if pos + maxy - 1 < L then pos + maxy - 1 else pos
  | .up =>
    if 0 < pos then
      (if pos - (maxy - 1) < 0 then 0 else pos - (maxy - 1))
    else pos
  | .npage => if pos + maxy - 1 < L then pos + 1 else pos
  | .ppage => if 0 < pos then pos - 1 else pos
  | .tab => pos

/-- One iteration of the `curses_epub` event loop (3pub.py lines 235-339).
In TOC mode the loop-top cursor clamp runs first; the switch key enters the
chapter view for the entry under the cursor — materializing its lines
through `textify` when it has a content reference and binding the empty
content otherwise — while the navigation keys go through `stepToc`.  In
chapter mode the switch key breaks back to the TOC and the navigation keys
update `chaps_pos[start + cursor_row]` through `stepChap`. -/
def step (body : String → String) (maxy maxx : Int) (s : EpubState) (k : Key) : EpubState :=
  match s.mode with
  | .toc =>
    let cr := tocClamp maxy s.cursorRow
    match k with
    | .tab =>
      match (getIdx s.chaps (s.start + cr) ("", none)).2 with
      | some src =>
        { s with cursorRow := cr,
                 mode := .chapter
                   (splitChar '\n' (textify (body src) (maxy, maxx) (some maxx.toNat))) }
      | none => { s with cursorRow := cr, mode := .chapter [] }
    | _ =>
      let p := stepToc maxy (s.chaps.length : Int) (s.start, s.cursorRow) k
      { s with start := p.1, cursorRow := p.2 }
  | .chapter chap =>
    match k with
    | .tab => { s with mode := .toc }
    | _ =>
      let i := s.start + s.cursorRow
      let pos := getIdx s.chapsPos i 0
      { s with chapsPos := setIdx s.chapsPos i (stepChap maxy (chap.length : Int) pos k) }

/-! ### Package indexer: `table_of_contents` (3pub.py lines 136-182) -/

structure ManifestItem where
  id : String
  href : String
  media_type : String

/-- The parse of the package metadata the `table_of_contents` generator
consumes, as delivered by its BeautifulSoup collaborator (the out-of-scope
XML tokenizer): the `rootfile` `full-path` from `META-INF/container.xml`,
the `dc:title` text, the `manifest` items, the spine's `idref` sequence in
order, and the `(content src, navlabel text)` pairs of the navpoints of the
ncx navigation document. -/
structure PackageDoc where
  opfPath : String
  title : String
  manifest : List ManifestItem
  spine : List String
  navpoints : List (String × String)

/-- Index (from the left, 0-based) of the last occurrence of `c`, or `-1`
when absent — `str.rfind`. -/
def lastIdxOf (cs : List Char) (c : Char) : Int :=
  match cs with
  | [] => -1
  | a :: rest =>
    let r := lastIdxOf rest c
    if 0 ≤ r then r + 1 else if a = c then 0 else -1

/-- `os.path.dirname` for POSIX paths: everything up to the last `/`, with
trailing slashes stripped unless the head is all slashes. -/
def dirname (p : String) : String :=
  let i := lastIdxOf p.data '/'
  let head := p.data.take (i + 1).toNat
  if head ≠ [] ∧ head.any (fun c => c ≠ '/') then
    String.mk ((head.reverse.dropWhile (fun c => c = '/')).reverse)
  else String.mk head

/-- `for item in spine: y.append(x[item.idref])` — Python raises `KeyError`
on an `idref` missing from the manifest mapping, modelled as `none`. -/
def resolveAll (f : String → Option String) : List String → Option (List String)
  | [] => some []
  | a :: rest =>
    match f a, resolveAll f rest with
    | some b, some bs => some (b :: bs)
    | _, _ => none

/-- `table_of_contents` (3pub.py lines 136-182), as the list of
`(title, contentRef)` pairs the generator yields.  Python dict assignment is
last-wins, modelled by `getLast?` over the matching items.  The ncx mapping
`z` is keyed by the navpoint `src` with any `#` fragment stripped; empty
keys are skipped (`if k:`), and `if ncx:` makes both a missing ncx item and
an empty resolved path fall back to an empty mapping. -/
def table_of_contents (pkg : PackageDoc) : Option (List TocEntry) :=
  let basedir0 := dirname pkg.opfPath
  let basedir := if basedir0 = "" then "" else basedir0 ++ "/"
  let x := fun (idref : String) =>
    ((pkg.manifest.filter (fun it => it.id = idref)).getLast?).map
      (fun it => basedir ++ it.href)
  let ncx : Option String :=
    ((pkg.manifest.filter
        (fun it => it.media_type = "application/x-dtbncx+xml")).getLast?).map
      (fun it => basedir ++ it.href)
  let zPairs : List (String × String) :=
    match ncx with
    | some p =>
      if p = "" then []
      else
        (pkg.navpoints.map (fun np => (fragStrip np.1, np.2))).filter
          (fun kv => kv.1 ≠ "")
    | none => []
  let z := fun (sec : String) =>
    ((zPairs.filter (fun kv => kv.1 = sec)).getLast?).map (fun kv => kv.2)
  match resolveAll x pkg.spine with
  | some y =>
    some ((pkg.title, none) ::
      y.map (fun sec =>
        match z sec with
        | some lab => (lab, some sec)
        | none => ("", some (pyStrip sec))))
  | none => none

/-! ### Path check and entry points (3pub.py lines 200-232) -/

/-- The extension component of `os.path.splitext` for POSIX paths: the last
dot of the final path component starts the extension, unless only dots
precede it within that component. -/
def splitextExt (p : String) : String :=
  let cs := p.data
  let sepIndex := lastIdxOf cs '/'
  let dotIndex := lastIdxOf cs '.'
  if sepIndex < dotIndex ∧
      ((cs.take dotIndex.toNat).drop (sepIndex + 1).toNat).any (fun c => c ≠ '.') then
    String.mk (cs.drop dotIndex.toNat)
  else ""

/-- `check_epub` (3pub.py lines 200-202); `os.path.isfile` is the abstract
filesystem collaborator `isFile`. -/
def check_epub (isFile : String → Bool) (fl : String) : Bool :=
  isFile fl && pyLower (splitextExt fl) == ".epub"

/-- `dump_epub` (3pub.py lines 205-219) as the sequence of printed pieces:
`none` when the path fails `check_epub` (the function returns before
touching the archive), otherwise, per TOC entry, the title, its `-`
underline, the textified body for entries with a content reference, and the
blank separator. -/
def dump_epub (isFile : String → Bool) (pkg : PackageDoc) (body : String → String)
    (maxcol : Option Nat) (fl : String) : Option (List String) :=
  if check_epub isFile fl then
    (table_of_contents pkg).map (fun chaps =>
      (chaps.map (fun e =>
        [e.1, String.mk (List.replicate e.1.length '-')] ++
        (match e.2 with
         | some src => [textify (body src) (80, 45) maxcol]
         | none => []) ++ ["\n"])).flatten)
  else none

/-- The startup of `curses_epub` (3pub.py lines 222-232): `none` when the
path fails `check_epub` (immediate return, no screen drawn, no archive
read), otherwise the initial reader state — all chapter offsets 0, the TOC
view at `(start, cursor_row) = (0, 0)`. -/
def curses_init (isFile : String → Bool) (pkg : PackageDoc) (fl : String) :
    Option EpubState :=
  if check_epub isFile fl then
    (table_of_contents pkg).map (fun chaps =>
      { chaps := chaps, chapsPos := chaps.map (fun _ => 0), start := 0, cursorRow := 0,
        mode := .toc })
  else none

/-! ### Concrete fixtures shared by the theorems -/

/-- A body collaborator returning twenty one-character lines. -/
def demoBody : String → String := fun _ =>
  "a\na\na\na\na\na\na\na\na\na\na\na\na\na\na\na\na\na\na\na"

/-- A two-entry session: the package-title header and one chapter. -/
def demoState : EpubState :=
  { chaps := [("T", none), ("Ch1", some "c1.html")], chapsPos := [0, 0],
    start := 0, cursorRow := 0, mode := .toc }

/-- The C8 scenario: move the cursor to the chapter, enter it, scroll to
offset 12, switch back to the TOC, navigate up and down, re-enter. -/
def demoKeys : List Key :=
  [Key.down, Key.tab] ++ List.replicate 12 Key.down ++
    [Key.tab, Key.up, Key.down, Key.tab]

/-- An archive whose three spine items carry navigation labels for items
1 and 3 only. -/
def demoPkg : PackageDoc :=
  { opfPath := "content.opf", title := "My Book",
    manifest :=
      [{ id := "c1", href := "ch1.html", media_type := "application/xhtml+xml" },
       { id := "c2", href := "ch2.html", media_type := "application/xhtml+xml" },
       { id := "c3", href := "ch3.html", media_type := "application/xhtml+xml" },
       { id := "nav", href := "toc.ncx", media_type := "application/x-dtbncx+xml" }],
    spine := ["c1", "c2", "c3"],
    navpoints := [("ch1.html#start", "One"), ("ch3.html", "Three")] }

/-- An archive with a single unlabeled spine item whose `href` carries a
leading space. -/
def wsPkg : PackageDoc :=
  { opfPath := "content.opf", title := "T",
    manifest := [{ id := "a", href := " ch2.html", media_type := "application/xhtml+xml" }],
    spine := ["a"], navpoints := [] }

/-! ### Converter theorems -/

/-- The re-encoding the `handle_entityref` / `handle_charref` overrides
would perform if they were ever invoked — the behaviour the spec describes,
dead under `convert_charrefs = True`. -/
theorem consumeEvent_reencodes_refs :
    consumeEvent "" (Event.entityref "amp") = "&amp;" ∧
    consumeEvent "" (Event.charref "169") = "&#169;" := by
  exact ⟨rfl, rfl⟩

/-- C1: refuted on the source — `textify` performs no reflow at all.  With
column limit 5 and the breakable input `<p>aaa bbb ccc</p>` it emits the
single line `aaa bbb ccc` of display width 11 > 5 even though whitespace
break points exist: `Writer` stores `maxcol` but `add_data` never consults
it. -/
theorem textify_ignores_maxcol :
    textify "<p>aaa bbb ccc</p>" (80, 45) (some 5) = "aaa bbb ccc" ∧
    occursIn "\n" "aaa bbb ccc" = false ∧
    5 < "aaa bbb ccc".length ∧ ' ' ∈ "aaa bbb ccc".data := by
  decide

/-- C2: refuted on the source — because `Parser` leaves `convert_charrefs`
at its default `True`, references are decoded before `handle_data`, and the
re-encoding `handle_entityref` / `handle_charref` overrides never run:
`&amp;` and `&#169;` come out as `&` and `©`, and the output contains
neither literal reference. -/
theorem textify_decodes_entities :
    textify "Hello &amp; welcome &#169;" (80, 45) (some 72) = "Hello & welcome ©" ∧
    occursIn "&amp;" "Hello & welcome ©" = false ∧
    occursIn "&#169;" "Hello & welcome ©" = false := by
  decide

/-- C5: refuted on the source — `handle_starttag` discards every tag, `img`
included, and `img_size` is never read: an image reference produces no
`[img="<path>" "<alt>"]` marker (here, no output at all), so the `i`-key
scan over rendered lines can never find one. -/
theorem textify_drops_image_tags :
    textify "<img src=\"images/cover.jpg\" alt=\"Cover\">" (80, 45) (some 72) = "" ∧
    occursIn "[img=" "" = false := by
  decide

/-! ### State machine theorems -/

/-- C3 counterexample: with the single header entry `("Title", none)` under
the cursor, the switch key is not a no-op that stays in the TOC view — the
machine enters the chapter view (with empty content). -/
theorem enter_header_not_noop :
    (step (fun _ => "") 5 80
        { chaps := [("Title", none)], chapsPos := [0], start := 0, cursorRow := 0,
          mode := .toc }
        Key.tab).mode = Mode.chapter [] ∧
    Mode.chapter [] ≠ Mode.toc := by
  decide

/-- C3 (amended): on a header entry (`contentRef = none`) the switch key
still enters the chapter view, but with empty content (zero lines); the TOC
window is unchanged, the cursor only undergoes the loop-top clamp, and the
scroll table is untouched, so the TOC state is intact for the eventual
return. -/
theorem enter_header_enters_empty_chapter (body : String → String) (maxy maxx : Int)
    (s : EpubState) (hm : s.mode = .toc)
    (hdr : (getIdx s.chaps (s.start + tocClamp maxy s.cursorRow) ("", none)).2 = none) :
    step body maxy maxx s Key.tab =
      { s with cursorRow := tocClamp maxy s.cursorRow, mode := .chapter [] } := by
  cases s with
  | mk chaps chapsPos start cursorRow mode =>
    cases mode with
    | toc =>
      simp only [step]
      rw [hdr]
    | chapter c => simp at hm

theorem enter_header_enters_empty_chapter_witness :
    step (fun _ => "") 3 10
        { chaps := [("T", none)], chapsPos := [0], start := 0, cursorRow := 0,
          mode := .toc } Key.tab =
      { chaps := [("T", none)], chapsPos := [0], start := 0,
        cursorRow := tocClamp 3 0, mode := .chapter [] } :=
  enter_header_enters_empty_chapter (fun _ => "") 3 10 _ rfl rfl

/-- C4 counterexample: in chapter mode the down-arrow (the claim's
`page-down`) moves the offset by `maxy - 1`, not by 1: with viewport 4 and
10 lines from offset 0 the guard `0 + 4 - 1 < 10` holds and the code yields
offset 3, not 1. -/
theorem chapter_down_arrow_not_one :
    (0 : Int) + 4 - 1 < 10 ∧ stepChap 4 10 0 Key.down = 3 ∧ (3 : Int) ≠ 0 + 1 := by
  decide

/-- C4 (amended): the key roles are the reverse of the claim — the
down-arrow (`page-down`) shifts the offset by `viewportHeight - 1` when
`o + viewportHeight - 1 < L` and otherwise leaves it unchanged; the
up-arrow mirrors it with floor 0; PgDn (`line-down`) increments the offset
by exactly 1 under the same guard `o + viewportHeight - 1 < L`; PgUp
(`line-up`) decrements by 1 while the offset is positive. -/
theorem chapter_scroll_steps (maxy L o : Int) :
    stepChap maxy L o Key.down = (if o + maxy - 1 < L then o + maxy - 1 else o) ∧
    stepChap maxy L o Key.up = (if 0 < o then max 0 (o - (maxy - 1)) else o) ∧
    stepChap maxy L o Key.npage = (if o + maxy - 1 < L then o + 1 else o) ∧
    stepChap maxy L o Key.ppage = (if 0 < o then o - 1 else o) := by
  refine ⟨rfl, ?_, rfl, rfl⟩
  simp only [stepChap, max_def]
  split_ifs <;> omega

/-- The inductive TOC invariant: window start in range, cursor row within
the viewport, and the cursor's entry index within the table. -/
def TocInv (maxy L : Int) (st : Int × Int) : Prop :=
  0 ≤ st.1 ∧ st.1 ≤ max 0 (L - maxy) ∧ 0 ≤ st.2 ∧ st.2 < maxy ∧ st.1 + st.2 < L

theorem stepToc_preserves (maxy L : Int) (h1 : 1 ≤ maxy) (h2 : 1 ≤ L)
    (st : Int × Int) (h : TocInv maxy L st) (k : Key) :
    TocInv maxy L (stepToc maxy L st k) := by
  obtain ⟨a1, a2, a3, a4, a5⟩ := h
  rw [max_def] at a2
  cases k <;>
    · simp only [stepToc, tocClamp, TocInv, max_def, min_def]
      split_ifs at * <;> simp_all <;> omega

/-- C6: confirmed — starting from the initial TOC state `(0, 0)`, any
sequence of the four navigation commands keeps
`0 ≤ windowStart ≤ max 0 (len(toc) - viewportHeight)` and
`windowStart + cursorRow < len(toc)`, for every TOC length ≥ 1 and viewport
height ≥ 1. -/
theorem toc_scroll_invariant (maxy L : Int) (h1 : 1 ≤ maxy) (h2 : 1 ≤ L)
    (ks : List Key)
    (hks : ∀ k ∈ ks, k = Key.down ∨ k = Key.up ∨ k = Key.npage ∨ k = Key.ppage) :
    0 ≤ (ks.foldl (stepToc maxy L) (0, 0)).1 ∧
    (ks.foldl (stepToc maxy L) (0, 0)).1 ≤ max 0 (L - maxy) ∧
    (ks.foldl (stepToc maxy L) (0, 0)).1 + (ks.foldl (stepToc maxy L) (0, 0)).2 < L := by
  have main : ∀ (l : List Key) (st : Int × Int), TocInv maxy L st →
      TocInv maxy L (l.foldl (stepToc maxy L) st) := by
    intro l
    induction l with
    | nil => intro st h; simpa using h
    | cons k rest ih => intro st h; exact ih _ (stepToc_preserves maxy L h1 h2 st h k)
  have h0 : TocInv maxy L (0, 0) := by
    refine ⟨le_refl 0, le_max_left 0 _, le_refl 0, by omega, by omega⟩
  obtain ⟨b1, b2, _, _, b5⟩ := main ks (0, 0) h0
  exact ⟨b1, b2, b5⟩

theorem toc_scroll_invariant_witness :
    (1 : Int) ≤ 2 ∧ (1 : Int) ≤ 3 ∧
    (0 ≤ ([Key.npage, Key.down, Key.ppage, Key.up].foldl (stepToc 2 3) (0, 0)).1 ∧
      ([Key.npage, Key.down, Key.ppage, Key.up].foldl (stepToc 2 3) (0, 0)).1 ≤
        max 0 (3 - 2) ∧
      ([Key.npage, Key.down, Key.ppage, Key.up].foldl (stepToc 2 3) (0, 0)).1 +
        ([Key.npage, Key.down, Key.ppage, Key.up].foldl (stepToc 2 3) (0, 0)).2 < 3) :=
  ⟨by decide, by decide,
    toc_scroll_invariant 2 3 (by decide) (by decide) _ (by decide)⟩

/-- C7: the code violates the page-step contract — with 100 entries,
viewport 10, from `windowStart = 0`, PgDn jumps `windowStart` to
`len(chaps) - maxy = 90`, not to the claimed clamp of `0 + (10 - 1) = 9`:
`list_chaps` returns the last enumerated index (rows drawn minus one), so
the short-final-page test `len_chaps < maxy` is always true and page-down
always snaps to the bottom window. -/
theorem toc_page_down_jumps_to_end :
    stepToc 10 100 (0, 0) Key.npage = (90, 0) ∧
    ((90 : Int), (0 : Int)) ≠ (0 + (10 - 1), 0) := by
  decide

set_option maxRecDepth 8000 in
/-- C8: confirmed — `chaps_pos` is untouched by every TOC-mode command and
by the chapter→TOC switch, so re-entering a chapter resumes at the stored
offset; concretely, entering chapter 1, scrolling to offset 12, returning to
the TOC, navigating, and re-entering leaves `chaps_pos = [0, 12]`. -/
theorem chaps_pos_persistence :
    (∀ (body : String → String) (maxy maxx : Int) (s : EpubState) (k : Key),
        s.mode = Mode.toc ∨ k = Key.tab →
        (step body maxy maxx s k).chapsPos = s.chapsPos) ∧
    (demoKeys.foldl (step demoBody 2 80) demoState).chapsPos = [0, 12] := by
  constructor
  · intro body maxy maxx s k h
    cases hm : s.mode with
    | toc =>
      cases k <;> simp [step, hm] <;>
        cases hsrc : (getIdx s.chaps (s.start + tocClamp maxy s.cursorRow) ("", none)).2 <;>
          simp [hsrc]
    | chapter c =>
      rcases h with h | h
      · rw [hm] at h; exact absurd h (by simp)
      · subst h; simp [step, hm]
  · decide

theorem chaps_pos_persistence_witness :
    (step demoBody 2 80 demoState Key.down).chapsPos = demoState.chapsPos :=
  chaps_pos_persistence.1 demoBody 2 80 demoState Key.down (Or.inl rfl)

/-! ### Package indexer theorems -/

theorem resolveAll_length (f : String → Option String) :
    ∀ (l : List String) (ys : List String), resolveAll f l = some ys →
      ys.length = l.length := by
  intro l
  induction l with
  | nil => intro ys h; simp [resolveAll] at h; simp [← h]
  | cons a rest ih =>
    intro ys h
    simp only [resolveAll] at h
    cases hf : f a with
    | none => rw [hf] at h; simp at h
    | some b =>
      rw [hf] at h
      cases hr : resolveAll f rest with
      | none => rw [hr] at h; simp at h
      | some bs =>
        rw [hr] at h
        simp only [Option.some.injEq] at h
        rw [← h]
        simp [ih bs hr]

/-- C9 counterexample: an unlabeled spine path is yielded with surrounding
whitespace stripped (`section.strip()`), not verbatim: the single spine
href `" ch2.html"` with no navigation labels yields the entry
`("", "ch2.html")`, not `("", " ch2.html")`. -/
theorem toc_unlabeled_path_stripped :
    table_of_contents wsPkg = some [("T", none), ("", some "ch2.html")] ∧
    (some "ch2.html" : Option String) ≠ some " ch2.html" := by
  decide

/-- C9 (amended): every spine path is yielded, never dropped — the output
has exactly `1 + len(spine)` entries whenever the spine resolves — labeled
paths verbatim with their label and unlabeled ones as
`('', path.strip())` (surrounding whitespace stripped); the three-item
scenario produces
`[(title, none), (label1, path1), ('', path2), (label3, path3)]`. -/
theorem toc_entries_labeling :
    table_of_contents demoPkg =
      some [("My Book", none), ("One", some "ch1.html"), ("", some "ch2.html"),
            ("Three", some "ch3.html")] ∧
    (∀ (pkg : PackageDoc) (toc : List TocEntry), table_of_contents pkg = some toc →
        toc.length = pkg.spine.length + 1) := by
  constructor
  · decide
  · intro pkg toc h
    simp only [table_of_contents] at h
    split at h
    next y hy =>
      cases h
      simp [resolveAll_length _ _ _ hy]
    next => cases h

theorem toc_entries_labeling_witness :
    ([("My Book", (none : Option String)), ("One", some "ch1.html"),
      ("", some "ch2.html"), ("Three", some "ch3.html")] : List TocEntry).length =
      demoPkg.spine.length + 1 :=
  toc_entries_labeling.2 demoPkg _ (by decide)

/-! ### Entry point theorems -/

/-- C10: confirmed — when the given path is not a regular file whose
extension lowercases to `.epub`, `check_epub` is falsy and both `dump_epub`
and `curses_epub` return at once: no output, no archive access, no error. -/
theorem non_epub_noop (isFile : String → Bool) (pkg : PackageDoc)
    (body : String → String) (maxcol : Option Nat) (fl : String)
    (h : ¬ (isFile fl = true ∧ pyLower (splitextExt fl) = ".epub")) :
    dump_epub isFile pkg body maxcol fl = none ∧ curses_init isFile pkg fl = none := by
  have hc : check_epub isFile fl = false := by
    cases hf : isFile fl with
    | false => simp [check_epub, hf]
    | true =>
      have he : pyLower (splitextExt fl) ≠ ".epub" := fun he => h ⟨hf, he⟩
      simp [check_epub, hf, he]
  simp [dump_epub, curses_init, hc]

theorem non_epub_noop_witness :
    dump_epub (fun _ => true) demoPkg (fun _ => "") none "book.txt" = none ∧
    curses_init (fun _ => true) demoPkg "book.txt" = none :=
  non_epub_noop (fun _ => true) demoPkg (fun _ => "") none "book.txt" (by decide)

end ThreePub
